import Mathlib

/-
  Shallow embedding of the cart / wishlist / order workflow of the Django app
  in `ecomm/shop` (models.py and views.py).

  Conventions of the embedding:
  * Database rows become structures; the database becomes a `Store` of row lists.
  * `DecimalField(max_digits=10, decimal_places=2)` prices are represented as
    integers in cents (10.00 -> 1000).
  * Autoincrement primary keys are modelled by the `nextId` counter; every
    `objects.create` consumes it.
  * `quantity` is carried as `Int`: the views assign `item.quantity = int(qty)`
    and `item.quantity += 1` with no validation at the Python level
    (`PositiveIntegerField` is a schema declaration, not checked by `save()`).
  * `auto_now_add` timestamps, images, names and descriptions are carried or
    omitted as noted on each structure; they take part in no view logic used here.
  * Users appear only through their ids: authentication is done by middleware
    outside the embedded code.
-/

namespace Shop

/-- Row of `Product` (models.py): id, name, description, price (cents),
image URL, seller FK, optional shop FK. `created_at` is omitted (unused). -/
structure Product where
  id : Nat
  name : String
  description : String
  price : Int
  image : String
  sellerId : Nat
  shopId : Option Nat
  deriving DecidableEq, Repr

/-- Row of `Cart` (models.py): one-to-one with a user. -/
structure Cart where
  id : Nat
  userId : Nat
  deriving DecidableEq, Repr

/-- Row of `CartItem` (models.py): cart FK, product FK, quantity (default 1). -/
structure CartItem where
  id : Nat
  cartId : Nat
  productId : Nat
  quantity : Int
  deriving DecidableEq, Repr

/-- Row of `Wishlist` (models.py): one-to-one with a user. -/
structure Wishlist where
  id : Nat
  userId : Nat
  deriving DecidableEq, Repr

/-- Row of `WishlistItem` (models.py): wishlist FK, product FK (no quantity). -/
structure WishlistItem where
  id : Nat
  wishlistId : Nat
  productId : Nat
  deriving DecidableEq, Repr

/-- Row of `Order` (models.py): user FK, address, status (default "Pending").
`created_at` is omitted (unused by the embedded logic). -/
structure Order where
  id : Nat
  userId : Nat
  address : String
  status : String
  deriving DecidableEq, Repr

/-- Row of `OrderItem` (models.py): order FK, product FK, quantity, and the
price copied at checkout. -/
structure OrderItem where
  id : Nat
  orderId : Nat
  productId : Nat
  quantity : Int
  price : Int
  deriving DecidableEq, Repr

/-- The persisted database state: one list per table plus the id counter. -/
structure Store where
  products : List Product
  carts : List Cart
  cartItems : List CartItem
  wishlists : List Wishlist
  wishlistItems : List WishlistItem
  orders : List Order
  orderItems : List OrderItem
  nextId : Nat
  deriving DecidableEq, Repr

/-- `Cart.objects.get_or_create(user=request.user)` (views.py:28,43,68,178):
returns the user's cart, creating an empty one if absent. -/
def getOrCreateCart (s : Store) (uid : Nat) : Store × Cart :=
  match s.carts.find? (fun c => c.userId == uid) with
  | some c => (s, c)
  | none =>
      let c : Cart := ⟨s.nextId, uid⟩
      ({ s with carts := s.carts ++ [c], nextId := s.nextId + 1 }, c)

/-- `Wishlist.objects.get_or_create(user=request.user)` (views.py:35,61). -/
def getOrCreateWishlist (s : Store) (uid : Nat) : Store × Wishlist :=
  match s.wishlists.find? (fun w => w.userId == uid) with
  | some w => (s, w)
  | none =>
      let w : Wishlist := ⟨s.nextId, uid⟩
      ({ s with wishlists := s.wishlists ++ [w], nextId := s.nextId + 1 }, w)

/-- Price lookup on a product list: resolves `product.price` through the
product FK (a FK always resolves in the database; 0 is the out-of-model
default for a dangling id, never hit under referential integrity). -/
def priceOfL (prods : List Product) (pid : Nat) : Int :=
  match prods.find? (fun p => p.id == pid) with
  | some p => p.price
  | none => 0

/-- `item.product.price` for a product id in store `s`. -/
def priceOf (s : Store) (pid : Nat) : Int :=
  priceOfL s.products pid

/-- `cart.items` for the user's cart: the cart's line items
(empty when the user has no cart row yet). -/
def userCartItems (s : Store) (uid : Nat) : List CartItem :=
  match s.carts.find? (fun c => c.userId == uid) with
  | some c => s.cartItems.filter (fun it => it.cartId == c.id)
  | none => []

/-- `wishlist.items` for the user's wishlist. -/
def userWishlistItems (s : Store) (uid : Nat) : List WishlistItem :=
  match s.wishlists.find? (fun w => w.userId == uid) with
  | some w => s.wishlistItems.filter (fun it => it.wishlistId == w.id)
  | none => []

/-- `sum(item.product.price * item.quantity for item in items)`
(views.py:45,195): the cart total, recomputed from current product prices. -/
def cartTotal (s : Store) (uid : Nat) : Int :=
  (userCartItems s uid).foldl (fun acc it => acc + priceOf s it.productId * it.quantity) 0

/-- The `add_to_cart` branch of `product_detail` (views.py:27-33):
get-or-create the cart, get-or-create the line item for the product
(quantity defaults to 1), and increment its quantity when it already existed. -/
def addToCart (s : Store) (uid pid : Nat) : Store :=
  let sc := getOrCreateCart s uid
  let s1 := sc.1
  let cart := sc.2
  match s1.cartItems.find? (fun it => it.cartId == cart.id && it.productId == pid) with
  | some it =>
      { s1 with cartItems := (s1.cartItems.map
          (fun j => if j.id == it.id then { j with quantity := j.quantity + 1 } else j)) }
  | none =>
      { s1 with cartItems := (s1.cartItems ++ [⟨s1.nextId, cart.id, pid, 1⟩]),
                nextId := s1.nextId + 1 }

/-- The `add_to_wishlist` branch of `product_detail` (views.py:34-37):
get-or-create the wishlist, then `WishlistItem.objects.get_or_create`:
nothing is written when an entry for the product already exists. -/
def addToWishlist (s : Store) (uid pid : Nat) : Store :=
  let sw := getOrCreateWishlist s uid
  let s1 := sw.1
  let wl := sw.2
  match s1.wishlistItems.find? (fun it => it.wishlistId == wl.id && it.productId == pid) with
  | some _ => s1
  | none =>
      { s1 with wishlistItems := (s1.wishlistItems ++ [⟨s1.nextId, wl.id, pid⟩]),
                nextId := s1.nextId + 1 }

/-- What the POST form of `cart_view` requests for one line item
(views.py:47-54): `remove_{id}` present, `quantity_{id}` present (setQty),
or neither / empty string (keep). -/
inductive ItemAction where
  | remove
  | setQty (q : Int)
  | keep
  deriving DecidableEq, Repr

/-- The POST handler of `cart_view` (views.py:46-55): for each item of the
user's cart, delete it when `remove_{id}` was posted, else overwrite its
quantity with `int(qty)` when a non-empty `quantity_{id}` was posted.
No validation and no removal happens for a non-positive quantity. -/
def cartViewPost (s : Store) (uid : Nat) (act : Nat → ItemAction) : Store :=
  let sc := getOrCreateCart s uid
  let s1 := sc.1
  let cart := sc.2
  let items := s1.cartItems.filter (fun it => it.cartId == cart.id)
  items.foldl
    (fun st it =>
      match act it.id with
      | ItemAction.remove =>
          { st with cartItems := st.cartItems.filter (fun j => !(j.id == it.id)) }
      | ItemAction.setQty q =>
          { st with cartItems := (st.cartItems.map
              (fun j => if j.id == it.id then { j with quantity := q } else j)) }
      | ItemAction.keep => st)
    s1

/-- The fields of `ProductForm` (views.py:139-142). -/
structure ProductForm where
  name : String
  description : String
  price : Int
  image : String
  deriving DecidableEq, Repr

/-- Outcome of `product_edit`: `notFound` is the Http404 raised by
`get_object_or_404`, `ok` the redirect to the seller dashboard after save. -/
inductive EditResp where
  | notFound
  | ok
  deriving DecidableEq, Repr

/-- `product_edit` (views.py:160-170): `get_object_or_404(Product,
id=product_id, seller=request.user)` raises Http404 unless a product with
this id is owned by the caller; on a valid POST the form fields are saved. -/
def productEdit (s : Store) (uid pid : Nat) (f : ProductForm) : Store × EditResp :=
  match s.products.find? (fun p => p.id == pid && p.sellerId == uid) with
  | none => (s, EditResp.notFound)
  | some p =>
      ({ s with products := (s.products.map
          (fun q => if q.id == p.id then
              { q with name := f.name, description := f.description,
                       price := f.price, image := f.image }
            else q)) },
       EditResp.ok)

/-- Outcome of `checkout`: redirect to the cart on an empty cart, redirect to
the orders page after a successful order. -/
inductive CheckoutResp where
  | redirectCart
  | redirectOrders
  deriving DecidableEq, Repr

/-- `checkout` (views.py:176-196), POST path with a valid address form:
get-or-create the cart; if it has no items, redirect to the cart; otherwise
create an `Order` (status defaults to "Pending"), create one `OrderItem` per
cart line item copying product, quantity and the product's current price,
then delete all of the cart's line items. -/
def checkout (s : Store) (uid : Nat) (addr : String) : Store × CheckoutResp :=
  let sc := getOrCreateCart s uid
  let s1 := sc.1
  let cart := sc.2
  let items := s1.cartItems.filter (fun it => it.cartId == cart.id)
  if items.isEmpty then (s1, CheckoutResp.redirectCart)
  else
    let order : Order := ⟨s1.nextId, uid, addr, "Pending"⟩
    let s2 := { s1 with orders := s1.orders ++ [order], nextId := s1.nextId + 1 }
    let s3 := items.foldl
      (fun st it =>
        { st with
            orderItems := st.orderItems ++ [⟨st.nextId, order.id, it.productId, it.quantity, priceOf st it.productId⟩],
            nextId := st.nextId + 1 })
      s2
    let s4 := { s3 with cartItems := s3.cartItems.filter (fun it => !(it.cartId == cart.id)) }
    (s4, CheckoutResp.redirectOrders)

/-- `checkout` with only the first `k` database writes committed. The view
body runs with no `transaction.atomic` wrapper (unlike `signup_view`,
views.py:105), so each ORM write autocommits; a failure after `k` writes
leaves exactly those `k` writes persisted. Write 1 is `Order.objects.create`,
writes 2..N+1 are the `OrderItem.objects.create` calls, write N+2 is
`items.delete()`. -/
def checkoutUpTo (s : Store) (uid : Nat) (addr : String) (k : Nat) : Store :=
  let sc := getOrCreateCart s uid
  let s1 := sc.1
  let cart := sc.2
  let items := s1.cartItems.filter (fun it => it.cartId == cart.id)
  if items.isEmpty then s1
  else if k = 0 then s1
  else
    let order : Order := ⟨s1.nextId, uid, addr, "Pending"⟩
    let s2 := { s1 with orders := s1.orders ++ [order], nextId := s1.nextId + 1 }
    let s3 := (items.take (k - 1)).foldl
      (fun st it =>
        { st with
            orderItems := st.orderItems ++ [⟨st.nextId, order.id, it.productId, it.quantity, priceOf st it.productId⟩],
            nextId := st.nextId + 1 })
      s2
    if items.length + 2 ≤ k then
      { s3 with cartItems := s3.cartItems.filter (fun it => !(it.cartId == cart.id)) }
    else s3

/-- The `add_to_cart_{id}` branch of `wishlist_view` (views.py:67-73): for a
wishlist item of the user, get-or-create the cart, get-or-create a `CartItem`
for the same product (incrementing its quantity when it already existed),
then delete the wishlist item. -/
def moveToCart (s : Store) (uid itemId : Nat) : Store :=
  match (userWishlistItems s uid).find? (fun it => it.id == itemId) with
  | none => s
  | some item =>
      let sc := getOrCreateCart s uid
      let s1 := sc.1
      let cart := sc.2
      let s2 : Store :=
        match s1.cartItems.find? (fun ci => ci.cartId == cart.id && ci.productId == item.productId) with
        | some ci =>
            { s1 with cartItems := (s1.cartItems.map
                (fun j => if j.id == ci.id then { j with quantity := j.quantity + 1 } else j)) }
        | none =>
            { s1 with cartItems := (s1.cartItems ++ [⟨s1.nextId, cart.id, item.productId, 1⟩]),
                      nextId := s1.nextId + 1 }
      { s2 with wishlistItems := s2.wishlistItems.filter (fun j => !(j.id == item.id)) }

/-- `moveToCart` with only the first `k` database writes committed: the view
branch has no `transaction.atomic` wrapper, so each write autocommits.
Write 1 creates or increments the `CartItem`, write 2 is `item.delete()`. -/
def moveToCartUpTo (s : Store) (uid itemId : Nat) (k : Nat) : Store :=
  match (userWishlistItems s uid).find? (fun it => it.id == itemId) with
  | none => s
  | some item =>
      if k = 0 then s
      else
        let sc := getOrCreateCart s uid
        let s1 := sc.1
        let cart := sc.2
        let s2 : Store :=
          match s1.cartItems.find? (fun ci => ci.cartId == cart.id && ci.productId == item.productId) with
          | some ci =>
              { s1 with cartItems := (s1.cartItems.map
                  (fun j => if j.id == ci.id then { j with quantity := j.quantity + 1 } else j)) }
          | none =>
              { s1 with cartItems := (s1.cartItems ++ [⟨s1.nextId, cart.id, item.productId, 1⟩]),
                        nextId := s1.nextId + 1 }
        if 2 ≤ k then
          { s2 with wishlistItems := s2.wishlistItems.filter (fun j => !(j.id == item.id)) }
        else s2

/-- `addToCart` iterated: Q successive `add_to_cart` POSTs for one product. -/
def addNTimes (s : Store) (uid pid : Nat) : Nat → Store
  | 0 => s
  | q + 1 => addToCart (addNTimes s uid pid q) uid pid

end Shop

namespace Shop

/-
  Concrete scenario of spec §8: seller A (user 1) creates product "Widget" at
  10.00 (1000 cents); buyer B (user 2) adds 3 units to the cart; seller A then
  changes the price to 15.00 (1500 cents); buyer B checks out.
-/

/-- Initial state of the price-snapshot scenario: one product "Widget"
priced 10.00, owned by user 1; no carts or orders yet. -/
def c2Start : Store :=
  { products := [⟨1, "Widget", "", 1000, "", 1, none⟩], carts := [], cartItems := [],
    wishlists := [], wishlistItems := [], orders := [], orderItems := [], nextId := 2 }

/-- State after buyer 2 added the Widget to the cart three times. -/
def c2AfterAdds : Store := addNTimes c2Start 2 1 3

/-- State after seller 1 edited the Widget, changing its price to 15.00. -/
def c2AfterEdit : Store := (productEdit c2AfterAdds 1 1 ⟨"Widget", "", 1500, ""⟩).1

/-- State after buyer 2 checked out. -/
def c2Final : Store := (checkout c2AfterEdit 2 "221B Baker Street").1

/-- Store with one buyer (user 20) whose cart holds two line items over the
two products of seller 10, used for the checkout-atomicity analysis. -/
def storeC1 : Store :=
  { products := [⟨1, "A", "", 500, "", 10, none⟩, ⟨2, "B", "", 700, "", 10, none⟩],
    carts := [⟨3, 20⟩], cartItems := [⟨4, 3, 1, 1⟩, ⟨5, 3, 2, 2⟩],
    wishlists := [], wishlistItems := [], orders := [], orderItems := [], nextId := 6 }

/-- Sanity check for `checkoutUpTo`: running all `N + 2` writes of the
checkout of `storeC1` (N = 2 line items) gives exactly the state of
`checkout`: the truncated runs are prefixes of the real view body. -/
theorem checkoutUpTo_complete_run :
    checkoutUpTo storeC1 20 "addr" 4 = (checkout storeC1 20 "addr").1 := by decide

/-- Store with one buyer (user 20) owning an empty cart and a wishlist with
one entry (id 4) for product 1, used for the move-to-cart atomicity analysis. -/
def storeC7 : Store :=
  { products := [⟨1, "A", "", 500, "", 10, none⟩],
    carts := [⟨5, 20⟩], cartItems := [],
    wishlists := [⟨3, 20⟩], wishlistItems := [⟨4, 3, 1⟩],
    orders := [], orderItems := [], nextId := 6 }

/-- Sanity check for `moveToCartUpTo`: running both writes gives exactly the
state of `moveToCart`. -/
theorem moveToCartUpTo_complete_run :
    moveToCartUpTo storeC7 20 4 2 = moveToCart storeC7 20 4 := by decide

/-- C1: the claim that checkout's order-creation steps are atomic fails on the
code: `checkout` (views.py:176-196) runs with no `transaction.atomic` wrapper,
so each write autocommits. If the run fails after the first write
(`Order.objects.create`), the persisted state holds an Order row with no
OrderItems while the cart still has its two line items — exactly the partial
state the claim says is never observable. -/
theorem checkout_not_atomic_partial_order_observable :
    (checkoutUpTo storeC1 20 "addr" 1).orders = [⟨6, 20, "addr", "Pending"⟩] ∧
    (checkoutUpTo storeC1 20 "addr" 1).orderItems = [] ∧
    (checkoutUpTo storeC1 20 "addr" 1).cartItems = storeC1.cartItems := by
  decide

/-- C2 counterexample: in the §8 scenario (buyer adds 3 Widgets at 10.00,
seller raises the price to 15.00, buyer checks out) the cart total after the
adds is 30.00, but the resulting OrderItem.price is 15.00, not the 10.00 the
claim states: the code copies `item.product.price` at checkout time. -/
theorem checkout_price_snapshot_counterexample :
    cartTotal c2AfterAdds 2 = 3000 ∧
    c2Final.orderItems.map (fun oi => oi.price) = [1500] ∧
    c2Final.orderItems.map (fun oi => oi.price) ≠ [1000] := by
  decide

/-- C2 amended: in the same scenario the single OrderItem copies product 1,
quantity 3 and the checkout-time price 15.00 (the add-time price 10.00 is
irrelevant): the design snapshots the price at checkout, not at add-to-cart. -/
theorem checkout_price_snapshot_at_checkout_time :
    c2Final.orderItems.map (fun oi => (oi.productId, oi.quantity, oi.price)) = [(1, 3, 1500)] ∧
    priceOf c2AfterEdit 1 = 1500 ∧ priceOf c2Start 1 = 1000 := by
  decide

/-- C4: editing any product through `product_edit` (in particular changing
its price) leaves every OrderItem row of every past order untouched: the
snapshot copied at checkout is immune to later product edits. -/
theorem orderItems_immune_to_product_edit (s : Store) (uid pid : Nat) (f : ProductForm) :
    ((productEdit s uid pid f).1).orderItems = s.orderItems := by
  cases hf : s.products.find? (fun p => p.id == pid && p.sellerId == uid) <;>
    simp [productEdit, hf]

/-- C6: whenever no product with id `pid` is owned by caller `uid` — covering
both a product owned by a different user and a wholly nonexistent id —
`product_edit` returns the Http404 not-found response and leaves the store
unchanged, so the two cases are indistinguishable to the caller. -/
theorem product_edit_not_found_indistinguishable (s : Store) (uid pid : Nat) (f : ProductForm)
    (h : ∀ p ∈ s.products, p.id = pid → p.sellerId ≠ uid) :
    productEdit s uid pid f = (s, EditResp.notFound) := by
  have hf : s.products.find? (fun p => p.id == pid && p.sellerId == uid) = none := by
    rw [List.find?_eq_none]
    intro p hp
    simp only [Bool.and_eq_true, beq_iff_eq, not_and]
    exact fun h1 h2 => h p hp h1 h2
  simp [productEdit, hf]

/-- Store for the C6 witness: one product owned by user 1. -/
def storeC6 : Store :=
  { products := [⟨1, "A", "", 500, "", 1, none⟩], carts := [], cartItems := [],
    wishlists := [], wishlistItems := [], orders := [], orderItems := [], nextId := 2 }

/-- C6 witness: user 2 attempting to edit product 1 (owned by user 1) hits
the not-found response with the store unchanged. -/
theorem product_edit_not_found_indistinguishable_witness :
    (∀ p ∈ storeC6.products, p.id = 1 → p.sellerId ≠ 2) ∧
    productEdit storeC6 2 1 ⟨"X", "", 999, ""⟩ = (storeC6, EditResp.notFound) :=
  ⟨by decide, product_edit_not_found_indistinguishable storeC6 2 1 ⟨"X", "", 999, ""⟩ (by decide)⟩

/-- C7: the claim that `move_to_cart` is atomic fails on the code: the
`add_to_cart_{id}` branch of `wishlist_view` (views.py:67-73) runs with no
`transaction.atomic` wrapper. If the run fails after the cart write but
before `item.delete()`, the product is present in the cart and still on the
wishlist — the duplication the claim says a failure can never produce. -/
theorem move_to_cart_not_atomic_duplication_observable :
    (userCartItems (moveToCartUpTo storeC7 20 4 1) 20).map (fun it => it.productId) = [1] ∧
    (userWishlistItems (moveToCartUpTo storeC7 20 4 1) 20).map (fun it => it.productId) = [1] ∧
    (userWishlistItems storeC7 20).map (fun it => it.productId) = [1] ∧
    userCartItems storeC7 20 = [] := by
  decide

end Shop

namespace Shop

/-- C5: checking out with an empty cart is refused before any write: the
response is the redirect to the cart view, no Order or OrderItem row is
created, and the cart's line items are untouched. The freshness hypothesis
says every cart FK points below the id counter, as database autoincrement
guarantees. -/
theorem checkout_empty_cart_noop (s : Store) (uid : Nat) (addr : String)
    (h : userCartItems s uid = [])
    (hfresh : ∀ it ∈ s.cartItems, it.cartId < s.nextId) :
    (checkout s uid addr).2 = CheckoutResp.redirectCart ∧
    (checkout s uid addr).1.orders = s.orders ∧
    (checkout s uid addr).1.orderItems = s.orderItems ∧
    (checkout s uid addr).1.cartItems = s.cartItems := by
  cases hc : s.carts.find? (fun c => c.userId == uid) with
  | some c =>
      have hit : s.cartItems.filter (fun it => it.cartId == c.id) = [] := by
        have h2 := h
        unfold userCartItems at h2
        rw [hc] at h2
        exact h2
      simp [checkout, getOrCreateCart, hc, hit]
  | none =>
      have hit : s.cartItems.filter (fun it => it.cartId == s.nextId) = [] := by
        rw [List.filter_eq_nil_iff]
        intro it hmem
        have := hfresh it hmem
        simp only [beq_iff_eq]
        omega
      simp [checkout, getOrCreateCart, hc, hit]

/-- Store for the C5 witness: user 20 owns cart 1 with no line items. -/
def storeC5 : Store :=
  { products := [], carts := [⟨1, 20⟩], cartItems := [],
    wishlists := [], wishlistItems := [], orders := [], orderItems := [], nextId := 2 }

/-- C5 witness: checkout of the empty cart of `storeC5` redirects to the
cart view and writes nothing. -/
theorem checkout_empty_cart_noop_witness :
    userCartItems storeC5 20 = [] ∧
    (∀ it ∈ storeC5.cartItems, it.cartId < storeC5.nextId) ∧
    ((checkout storeC5 20 "addr").2 = CheckoutResp.redirectCart ∧
     (checkout storeC5 20 "addr").1.orders = storeC5.orders ∧
     (checkout storeC5 20 "addr").1.orderItems = storeC5.orderItems ∧
     (checkout storeC5 20 "addr").1.cartItems = storeC5.cartItems) :=
  ⟨by decide, by decide, checkout_empty_cart_noop storeC5 20 "addr" (by decide) (by decide)⟩

/-- Store with one user (uid) owning a cart (cid) holding a single line item
(iid) of quantity q0 for the one product (pid) of seller sid. -/
def singleItemStore (pid : Nat) (price : Int) (sid cid uid iid : Nat) (q0 : Int) (n : Nat) : Store :=
  { products := [⟨pid, "P", "D", price, "I", sid, none⟩],
    carts := [⟨cid, uid⟩], cartItems := [⟨iid, cid, pid, q0⟩],
    wishlists := [], wishlistItems := [], orders := [], orderItems := [], nextId := n }

/-- C9: posting `quantity_{iid} = q` to `cart_view` overwrites the line
item's quantity with the supplied value even when q ≤ 0: the value is stored
as-is and the line item is kept, not removed. -/
theorem cart_set_quantity_nonpositive_stored (pid : Nat) (price : Int) (sid cid uid iid : Nat)
    (q0 q : Int) (n : Nat) (hq : q ≤ 0) :
    (cartViewPost (singleItemStore pid price sid cid uid iid q0 n) uid
        (fun j => if j == iid then ItemAction.setQty q else ItemAction.keep)).cartItems
      = [⟨iid, cid, pid, q⟩] := by
  simp [cartViewPost, getOrCreateCart, singleItemStore]

/-- C9 witness: setting quantity -2 on the single line item stores -2 and
keeps the row. -/
theorem cart_set_quantity_nonpositive_stored_witness :
    (-2 : Int) ≤ 0 ∧
    (cartViewPost (singleItemStore 1 500 10 2 20 3 4 5) 20
        (fun j => if j == 3 then ItemAction.setQty (-2) else ItemAction.keep)).cartItems
      = [⟨3, 2, 1, -2⟩] :=
  ⟨by decide, cart_set_quantity_nonpositive_stored 1 500 10 2 20 3 4 (-2) 5 (by decide)⟩

/-- C10: adding a product that is already on the user's wishlist is a no-op:
`WishlistItem.objects.get_or_create` finds the existing row and writes
nothing, so no duplicate entry is ever created. -/
theorem wishlist_add_idempotent (s : Store) (uid pid : Nat) (wl : Wishlist) (item : WishlistItem)
    (hw : s.wishlists.find? (fun w => w.userId == uid) = some wl)
    (hmem : item ∈ s.wishlistItems) (hid : item.wishlistId = wl.id)
    (hpid : item.productId = pid) :
    addToWishlist s uid pid = s := by
  have hg : getOrCreateWishlist s uid = (s, wl) := by
    unfold getOrCreateWishlist
    rw [hw]
  cases hfind : s.wishlistItems.find? (fun it => it.wishlistId == wl.id && it.productId == pid) with
  | some x => simp [addToWishlist, hg, hfind]
  | none =>
      exfalso
      have hnone := List.find?_eq_none.mp hfind item hmem
      simp [hid, hpid] at hnone

/-- Store for the C10 witness: user 20 has product 7 on wishlist 1 already. -/
def storeC10 : Store :=
  { products := [⟨7, "A", "", 500, "", 10, none⟩], carts := [], cartItems := [],
    wishlists := [⟨1, 20⟩], wishlistItems := [⟨2, 1, 7⟩],
    orders := [], orderItems := [], nextId := 3 }

/-- C10 witness: re-adding product 7 to the wishlist of `storeC10` leaves the
store unchanged. -/
theorem wishlist_add_idempotent_witness :
    storeC10.wishlists.find? (fun w => w.userId == 20) = some ⟨1, 20⟩ ∧
    (⟨2, 1, 7⟩ : WishlistItem) ∈ storeC10.wishlistItems ∧
    addToWishlist storeC10 20 7 = storeC10 :=
  ⟨by decide, by decide,
   wishlist_add_idempotent storeC10 20 7 ⟨1, 20⟩ ⟨2, 1, 7⟩ (by decide) (by decide) rfl rfl⟩

end Shop

namespace Shop

/-- Store with one product (pid, owned by sid) and one user (uid) owning the
empty cart cid: the starting point of the repeated-add scenario. -/
def oneProductStore (pid : Nat) (price : Int) (sid cid uid : Nat) (n : Nat) : Store :=
  { products := [⟨pid, "P", "D", price, "I", sid, none⟩],
    carts := [⟨cid, uid⟩], cartItems := [],
    wishlists := [], wishlistItems := [], orders := [], orderItems := [], nextId := n }

/-- After q+1 `add_to_cart` posts on the empty cart of `oneProductStore`, the
cart holds a single line item of quantity q+1 (the first post creates it with
quantity 1, each further post increments it). -/
theorem addNTimes_oneProduct (pid : Nat) (price : Int) (sid cid uid n : Nat) (q : Nat) :
    addNTimes (oneProductStore pid price sid cid uid n) uid pid (q + 1)
      = { oneProductStore pid price sid cid uid n with
            cartItems := [⟨n, cid, pid, (q : Int) + 1⟩], nextId := n + 1 } := by
  induction q with
  | zero =>
      simp [addNTimes, addToCart, getOrCreateCart, oneProductStore]
  | succ k ih =>
      rw [show k + 1 + 1 = (k + 1) + 1 from rfl, addNTimes, ih]
      simp [addToCart, getOrCreateCart, oneProductStore]

/-- C8: for every product price > 0 and every Q ≥ 1, adding the product to an
initially empty cart Q times via the `add_to_cart` branch yields a cart whose
recomputed total equals price * Q. -/
theorem add_item_repeated_total (pid : Nat) (price : Int) (sid cid uid n : Nat) (Q : Nat)
    (hp : 0 < price) (hQ : 1 ≤ Q) :
    cartTotal (addNTimes (oneProductStore pid price sid cid uid n) uid pid Q) uid
      = price * (Q : Int) := by
  obtain ⟨q, rfl⟩ : ∃ q, Q = q + 1 := ⟨Q - 1, (Nat.succ_pred_eq_of_pos hQ).symm⟩
  rw [addNTimes_oneProduct]
  simp [cartTotal, userCartItems, priceOf, priceOfL, oneProductStore]

/-- C8 witness: adding product 1 (price 5.00) three times to the empty cart
gives a total of 15.00. -/
theorem add_item_repeated_total_witness :
    (0 : Int) < 500 ∧ 1 ≤ 3 ∧
    cartTotal (addNTimes (oneProductStore 1 500 10 2 20 7) 20 1 3) 20 = 500 * (3 : Int) :=
  ⟨by decide, by decide, add_item_repeated_total 1 500 10 2 20 7 3 (by decide) (by decide)⟩

end Shop

namespace Shop

/-- The OrderItem rows the checkout loop creates for the given cart line
items: ids counted up from `base`, order FK `oid`, each row copying the line
item's product and quantity and the product's current price from `prods`. -/
def orderItemsFor (prods : List Product) (oid : Nat) : List CartItem → Nat → List OrderItem
  | [], _ => []
  | it :: rest, base =>
      ⟨base, oid, it.productId, it.quantity, priceOfL prods it.productId⟩ ::
        orderItemsFor prods oid rest (base + 1)

theorem orderItemsFor_length (prods : List Product) (oid : Nat) :
    ∀ (items : List CartItem) (base : Nat),
      (orderItemsFor prods oid items base).length = items.length := by
  intro items
  induction items with
  | nil => intro base; rfl
  | cons it rest ih => intro base; simp [orderItemsFor, ih]

theorem orderItemsFor_map (prods : List Product) (oid : Nat) :
    ∀ (items : List CartItem) (base : Nat),
      (orderItemsFor prods oid items base).map
          (fun oi => (oi.orderId, oi.productId, oi.quantity, oi.price))
        = items.map (fun it => (oid, it.productId, it.quantity, priceOfL prods it.productId)) := by
  intro items
  induction items with
  | nil => intro base; rfl
  | cons it rest ih => intro base; simp [orderItemsFor, ih]

/-- Unrolls the OrderItem-creation loop of `checkout`: starting from any
state `st`, the loop appends exactly `orderItemsFor` and bumps the id
counter by the number of items. -/
theorem checkout_fold (oid : Nat) :
    ∀ (items : List CartItem) (st : Store),
      items.foldl (fun st it =>
        { st with
            orderItems := st.orderItems ++ [⟨st.nextId, oid, it.productId, it.quantity, priceOf st it.productId⟩],
            nextId := st.nextId + 1 }) st
      = { st with
            orderItems := st.orderItems ++ orderItemsFor st.products oid items st.nextId,
            nextId := st.nextId + items.length } := by
  intro items
  induction items with
  | nil => intro st; simp [orderItemsFor]
  | cons it rest ih =>
      intro st
      rw [List.foldl_cons, ih]
      simp [orderItemsFor, priceOf, List.append_assoc]
      omega

end Shop

namespace Shop

/-- C3: checking out a non-empty cart creates exactly one new Order (for the
caller, with the given address and status "Pending") and one OrderItem per
cart line item — each copying the item's product, quantity and the product's
current price — empties the cart, and keeps the cart row itself. -/
theorem checkout_nonempty_creates_order_and_items (s : Store) (uid : Nat) (addr : String)
    (h : userCartItems s uid ≠ []) :
    ∃ oid,
      (checkout s uid addr).1.orders = s.orders ++ [⟨oid, uid, addr, "Pending"⟩] ∧
      (checkout s uid addr).1.orderItems.length
        = s.orderItems.length + (userCartItems s uid).length ∧
      ((checkout s uid addr).1.orderItems.drop s.orderItems.length).map
          (fun oi => (oi.orderId, oi.productId, oi.quantity, oi.price))
        = (userCartItems s uid).map
            (fun it => (oid, it.productId, it.quantity, priceOf s it.productId)) ∧
      (checkout s uid addr).1.carts = s.carts ∧
      userCartItems (checkout s uid addr).1 uid = [] ∧
      (checkout s uid addr).2 = CheckoutResp.redirectOrders := by
  obtain ⟨c, hc⟩ : ∃ c, s.carts.find? (fun c => c.userId == uid) = some c := by
    unfold userCartItems at h
    cases hfc : s.carts.find? (fun c => c.userId == uid) with
    | some c => exact ⟨c, rfl⟩
    | none => rw [hfc] at h; exact absurd rfl h
  have hitems : userCartItems s uid = s.cartItems.filter (fun it => it.cartId == c.id) := by
    unfold userCartItems
    rw [hc]
  have hne : (s.cartItems.filter (fun it => it.cartId == c.id)).isEmpty = false := by
    rw [List.isEmpty_eq_false, ← hitems]
    exact h
  have hg : getOrCreateCart s uid = (s, c) := by
    unfold getOrCreateCart
    rw [hc]
  have hck : checkout s uid addr =
      ({ s with
           orders := s.orders ++ [⟨s.nextId, uid, addr, "Pending"⟩],
           cartItems := s.cartItems.filter (fun it => !(it.cartId == c.id)),
           orderItems := s.orderItems ++
             orderItemsFor s.products s.nextId
               (s.cartItems.filter (fun it => it.cartId == c.id)) (s.nextId + 1),
           nextId := s.nextId + 1 + (s.cartItems.filter (fun it => it.cartId == c.id)).length },
       CheckoutResp.redirectOrders) := by
    simp only [checkout, hg, hne]
    rw [checkout_fold]
    simp [List.append_assoc]
  refine ⟨s.nextId, ?_, ?_, ?_, ?_, ?_, ?_⟩
  · rw [hck]
  · rw [hck]
    simp [orderItemsFor_length, hitems]
  · rw [hck]
    simp only [List.drop_left]
    simp [orderItemsFor_map, hitems, priceOf]
  · rw [hck]
  · rw [hck]
    simp [userCartItems, hc, List.filter_filter]
  · rw [hck]


/-- Store for the C3 witness: user 20's cart holds one line item of
quantity 4 for product 1 (price 5.00). -/
def storeC3 : Store := singleItemStore 1 500 10 2 20 3 4 5

/-- C3 witness: checkout of `storeC3` creates one Pending order and one
OrderItem copying product 1, quantity 4, price 5.00, and empties the cart. -/
theorem checkout_nonempty_creates_order_and_items_witness :
    userCartItems storeC3 20 ≠ [] ∧
    (∃ oid,
      (checkout storeC3 20 "addr").1.orders
        = storeC3.orders ++ [⟨oid, 20, "addr", "Pending"⟩] ∧
      (checkout storeC3 20 "addr").1.orderItems.length
        = storeC3.orderItems.length + (userCartItems storeC3 20).length ∧
      ((checkout storeC3 20 "addr").1.orderItems.drop storeC3.orderItems.length).map
          (fun oi => (oi.orderId, oi.productId, oi.quantity, oi.price))
        = (userCartItems storeC3 20).map
            (fun it => (oid, it.productId, it.quantity, priceOf storeC3 it.productId)) ∧
      (checkout storeC3 20 "addr").1.carts = storeC3.carts ∧
      userCartItems (checkout storeC3 20 "addr").1 20 = [] ∧
      (checkout storeC3 20 "addr").2 = CheckoutResp.redirectOrders) :=
  ⟨by decide, checkout_nonempty_creates_order_and_items storeC3 20 "addr" (by decide)⟩

end Shop
